import Mathlib

/-!
Shallow embedding of the remote-to-home mirror controller
(`crates/fluvio-spu/src/mirroring/remote/controller.rs`).

The controller's mutable state is the metric block `MirrorControllerMetrics`
(`loop_count`, `connect_count`, `connect_failure`, `home_leo`).  Offsets are
signed 64-bit integers, modelled as `Int` (the code only compares and stores
them, so no overflow arithmetic arises).  The async sync loop is modelled as a
step function over one loop iteration: the update-home phase at the top of the
body followed by one `select!` event (leader offset change, inbound
`UpdateHomeOffset` frame, end of stream, or frame decode error), with outbound
sink writes collected as a list of actions.
-/

namespace Mirror

deriving instance DecidableEq for Except

/-- Isolation level (`fluvio_spu_schema::Isolation`). -/
inductive Isolation where
  | readCommitted
  | readUncommitted
deriving DecidableEq, Repr

/-- The metric block `MirrorControllerMetrics` of the controller state:
`loop_count`, `connect_count`, `connect_failure` are `AtomicU64` counters and
`home_leo` an `AtomicI64` gauge, initially `-1`. -/
structure MirrorControllerMetrics where
  loop_count : Nat
  connect_count : Nat
  connect_failure : Nat
  home_leo : Int
deriving DecidableEq, Repr

/-- `MirrorControllerState::new()`: all counters zero, `home_leo = -1`
(unknown). -/
def initialMetrics : MirrorControllerMetrics :=
  { loop_count := 0, connect_count := 0, connect_failure := 0, home_leo := -1 }

/-- `MirrorControllerMetrics::update_home_leo`. -/
def update_home_leo (m : MirrorControllerMetrics) (leo : Int) : MirrorControllerMetrics :=
  { m with home_leo := leo }

/-- `MirrorControllerMetrics::get_home_leo`. -/
def get_home_leo (m : MirrorControllerMetrics) : Int :=
  m.home_leo

/-- `MirrorControllerMetrics::increase_loop_count`. -/
def increase_loop_count (m : MirrorControllerMetrics) : MirrorControllerMetrics :=
  { m with loop_count := m.loop_count + 1 }

/-- `MirrorControllerMetrics::increase_conn_count`. -/
def increase_conn_count (m : MirrorControllerMetrics) : MirrorControllerMetrics :=
  { m with connect_count := m.connect_count + 1 }

/-- `MirrorControllerMetrics::increase_conn_failure`. -/
def increase_conn_failure (m : MirrorControllerMetrics) : MirrorControllerMetrics :=
  { m with connect_failure := m.connect_failure + 1 }

/-- `backoff_and_wait`: sleeps for the backoff delay and then increments
`connect_failure`; the metric effect is all we model. -/
def backoff_and_wait (m : MirrorControllerMetrics) : MirrorControllerMetrics :=
  increase_conn_failure m

/-- `update_from_home` (controller.rs:299-337): read `leader_leo`,
`old_home_leo`, `new_home_leo = req.request.leo`; if `old_home_leo < 0` store
`new_home_leo`; then match `new_home_leo.cmp(&leader_leo)`:
Greater returns `Err`, Less stores `new_home_leo` and returns `Ok(true)`,
Equal returns `Ok(false)`.  Returns the metric state after the call together
with the function result. -/
def update_from_home (m : MirrorControllerMetrics) (leader_leo new_home_leo : Int) :
    MirrorControllerMetrics × Except String Bool :=
  let m1 := if get_home_leo m < 0 then update_home_leo m new_home_leo else m
  if leader_leo < new_home_leo then
    (m1, .error ("home leo " ++ toString new_home_leo ++ " greater than leader leo "
      ++ toString leader_leo ++ " this should not happen, this is error"))
  else if new_home_leo < leader_leo then
    (update_home_leo m1 new_home_leo, .ok true)
  else
    (m1, .ok false)

/-- A `(leo, hw)` pair as returned by `leader.as_offset()`. -/
structure OffsetInfo where
  leo : Int
  hw : Int
deriving DecidableEq, Repr

/-- The slice returned by `leader.read_records`: end offsets plus an optional
file slice (modelled as raw bytes). -/
structure ReadSlice where
  end_offsets : OffsetInfo
  file_slice : Option (List Nat)
deriving DecidableEq, Repr

/-- `FilePartitionSyncRequest { leo, hw, records }`; `records` defaults to
empty. -/
structure FilePartitionSyncRequest where
  leo : Int
  hw : Int
  records : List Nat
deriving DecidableEq, Repr

/-- `generate_home_sync` (controller.rs:370-424): read the leader offsets; if
`leo == home_leo` return `Ok(None)`; otherwise build the response with the
leader's `leo`/`hw` and, when `leo > home_leo`, read records from the log at
`home_leo` bounded by `max_bytes` under `isolation` — on success attach the
file slice (if any) and return `Some`, on read error return `Err`; when
`leo < home_leo` return `Err`.  `read_records` stands for
`leader.read_records(start_offset, max_bytes, isolation)`. -/
def generate_home_sync (leader_offset : OffsetInfo)
    (read_records : Int → Nat → Isolation → Except String ReadSlice)
    (max_bytes : Nat) (iso : Isolation) (home_leo : Int) :
    Except String (Option FilePartitionSyncRequest) :=
  if leader_offset.leo = home_leo then
    .ok none
  else
    let partition_response : FilePartitionSyncRequest :=
      { leo := leader_offset.leo, hw := leader_offset.hw, records := [] }
    if home_leo < leader_offset.leo then
      match read_records home_leo max_bytes iso with
      | .ok slice =>
        match slice.file_slice with
        | some fs => .ok (some { partition_response with records := fs })
        | none => .ok (some partition_response)
      | .error err => .error ("error reading records: " ++ err)
    else
      .error "leader has more records than home, this should not happen"

/-- The `Home` descriptor fields the controller uses. -/
structure Home where
  id : String
  remote_id : String
deriving DecidableEq, Repr

/-- Outbound sink writes and backoff sleeps performed by the sync loop. -/
inductive OutAction where
  | sendStartMirror (remote_cluster_id : String) (remote_replica : String)
  | sendPartitionSync (req : FilePartitionSyncRequest)
  | backoffWait
deriving DecidableEq, Repr

/-- Whether an outbound action is a `FilePartitionSyncRequest` write. -/
def OutAction.isPartitionSync : OutAction → Bool
  | .sendPartitionSync _ => true
  | _ => false

/-- `send_initial_request` (controller.rs:279-294): the first sink write is a
`StartMirrorRequest` with `remote_cluster_id = home.remote_id` and
`remote_replica = leader.id().to_string()`. -/
def send_initial_request (home : Home) (leader_replica : String) : OutAction :=
  .sendStartMirror home.remote_id leader_replica

/-- `update_home` (controller.rs:340-352): compute `generate_home_sync`; on
`None` write nothing, on `Some` encode the sync request on the sink, on error
propagate it. -/
def update_home (leader_offset : OffsetInfo)
    (read_records : Int → Nat → Isolation → Except String ReadSlice)
    (max_bytes : Nat) (iso : Isolation) (home_leo : Int) :
    Except String (List OutAction) :=
  match generate_home_sync leader_offset read_records max_bytes iso home_leo with
  | .ok (some sync_request) => .ok [.sendPartitionSync sync_request]
  | .ok none => .ok []
  | .error e => .error e

/-- The event resolved by the `select!` in one iteration of
`sync_mirror_loop`: the leader offset listener fires, an
`UpdateHomeOffsetRequest` frame arrives, the inbound stream ends, or a frame
fails to decode. -/
inductive HomeEvent where
  | offsetChange
  | updateHomeOffset (leo : Int)
  | endOfStream
  | decodeError
deriving DecidableEq, Repr

/-- Whether the event is an inbound `UpdateHomeOffsetRequest`. -/
def HomeEvent.isUpdateHomeOffset : HomeEvent → Bool
  | .updateHomeOffset _ => true
  | _ => false

/-- The environment of one loop iteration: the leader offsets as read by the
update-home phase, the leader `leo()` as read by `update_from_home` when the
event is an inbound update, the log read function, and the event the
`select!` resolves to. -/
structure StepEnv where
  leader_at_update : OffsetInfo
  leader_at_event : OffsetInfo
  read_records : Int → Nat → Isolation → Except String ReadSlice
  ev : HomeEvent

/-- Static configuration injected at `run`. -/
structure SyncConfig where
  max_bytes : Nat
  iso : Isolation

/-- Per-connection loop state: the shared metric block plus the local
`home_updated_needed` flag. -/
structure SyncState where
  metrics : MirrorControllerMetrics
  home_updated_needed : Bool

/-- Outcome of one loop iteration: continue looping, or leave
`sync_mirror_loop` with a result (`Ok` on the end-of-stream break, `Err` on
any `?`-propagated error). -/
inductive StepOutcome where
  | next (s : SyncState) (out : List OutAction)
  | exit (s : SyncState) (out : List OutAction) (result : Except String Unit)

/-- The state carried out of an iteration. -/
def StepOutcome.state : StepOutcome → SyncState
  | .next s _ => s
  | .exit s _ _ => s

/-- The outbound actions of an iteration. -/
def StepOutcome.out : StepOutcome → List OutAction
  | .next _ out => out
  | .exit _ out _ => out

/-- The update-home phase at the top of each `sync_mirror_loop` iteration
(controller.rs:234-242): read `home_leo`; if `home_updated_needed &&
home_leo >= 0`, run `update_home` (propagating its error with `?`) and clear
the flag; otherwise do nothing. -/
def sync_update_phase (cfg : SyncConfig) (env : StepEnv) (s : SyncState) :
    Except String (List OutAction × SyncState) :=
  if s.home_updated_needed ∧ 0 ≤ get_home_leo s.metrics then
    match update_home env.leader_at_update env.read_records cfg.max_bytes cfg.iso
        (get_home_leo s.metrics) with
    | .ok out => .ok (out, { s with home_updated_needed := false })
    | .error e => .error e
  else
    .ok ([], s)

/-- One iteration of the `sync_mirror_loop` body (controller.rs:233-272):
the update-home phase, then the `select!`: a leader offset change sets the
flag; an inbound `UpdateHomeOffsetRequest` assigns `update_from_home`'s
result to the flag (propagating its error); end of stream runs
`backoff_and_wait` and breaks with `Ok`; a decode error returns `Err`.
`increase_conn_count` runs at the bottom of the body only when the loop
continues. -/
def sync_step (cfg : SyncConfig) (env : StepEnv) (s : SyncState) : StepOutcome :=
  match sync_update_phase cfg env s with
  | .error e => .exit s [] (.error e)
  | .ok (out, s1) =>
    match env.ev with
    | .offsetChange =>
      .next { metrics := increase_conn_count s1.metrics, home_updated_needed := true } out
    | .updateHomeOffset leo =>
      match update_from_home s1.metrics env.leader_at_event.leo leo with
      | (m, .ok b) => .next { metrics := increase_conn_count m, home_updated_needed := b } out
      | (m, .error e) => .exit { s1 with metrics := m } out (.error e)
    | .endOfStream =>
      .exit { s1 with metrics := backoff_and_wait s1.metrics } (out ++ [.backoffWait]) (.ok ())
    | .decodeError =>
      .exit s1 out (.error "frame decode error")

/-- Run the sync loop over a finite script of iteration environments,
collecting the outbound actions; `none` as third component means the script
ended with the loop still running. -/
def sync_run (cfg : SyncConfig) :
    SyncState → List StepEnv → SyncState × List OutAction × Option (Except String Unit)
  | s, [] => (s, [], none)
  | s, env :: rest =>
    match sync_step cfg env s with
    | .next s1 out =>
      let r := sync_run cfg s1 rest
      (r.1, out ++ r.2.1, r.2.2)
    | .exit s1 out res => (s1, out, some res)

/-- `sync_mirror_loop` (controller.rs:207-277) on one connection: send the
initial `StartMirrorRequest`, then run the event loop with
`home_updated_needed = false` and the metric block carried over from before
the connection (it is shared state, not reset per connection). -/
def sync_mirror_loop (cfg : SyncConfig) (home : Home) (leader_replica : String)
    (m : MirrorControllerMetrics) (envs : List StepEnv) :
    SyncState × List OutAction × Option (Except String Unit) :=
  let s0 : SyncState := { metrics := m, home_updated_needed := false }
  let r := sync_run cfg s0 envs
  (r.1, send_initial_request home leader_replica :: r.2.1, r.2.2)

/-- A socket handle (opaque to the controller logic). -/
structure FluvioSocket where
  sid : Nat
deriving DecidableEq, Repr

/-- `RemotePartitionConfig`. -/
structure RemotePartitionConfig where
  home_cluster : String
  home_spu_endpoint : String
  home_spu_id : Int
deriving DecidableEq, Repr

/-- `create_socket_to_home` (controller.rs:428-458): in a loop, increment
`connect_count` and attempt `FluvioSocket::connect(remote_config.home_spu_endpoint)`;
on success return `(socket, false)` (TLS always false); on failure run
`backoff_and_wait` and retry.  `connect` takes the endpoint and the attempt
index; `fuel` bounds the unrolling (the result is `none` only when the fuel
runs out with the loop still retrying — the function itself has no error
return). -/
def create_socket_to_home (remote_config : RemotePartitionConfig)
    (connect : String → Nat → Except String FluvioSocket) :
    MirrorControllerMetrics → Nat → Nat →
      Option (FluvioSocket × Bool) × MirrorControllerMetrics
  | m, _, 0 => (none, m)
  | m, attempt, fuel + 1 =>
    let m1 := increase_conn_count m
    match connect remote_config.home_spu_endpoint attempt with
    | .ok socket => (some (socket, false), m1)
    | .error _ => create_socket_to_home remote_config connect (backoff_and_wait m1) (attempt + 1) fuel

/-- Concrete read function that always fails (used at inputs where no read
should occur). -/
def noReads : Int → Nat → Isolation → Except String ReadSlice :=
  fun _ _ _ => .error "no read"

/-- Concrete read function returning a three-byte file slice. -/
def readOk : Int → Nat → Isolation → Except String ReadSlice :=
  fun _ _ _ => .ok { end_offsets := { leo := 5, hw := 5 }, file_slice := some [1, 2, 3] }

/-- Concrete configuration for concrete runs. -/
def cfg0 : SyncConfig := { max_bytes := 1024, iso := .readUncommitted }

/-- Concrete `Home` descriptor. -/
def home0 : Home := { id := "home-a", remote_id := "edge1" }

/-- Iteration environment whose event is an `UpdateHomeOffset{leo = 5}` frame
while the leader's leo is 3. -/
def envBootstrapAhead : StepEnv :=
  { leader_at_update := { leo := 3, hw := 3 }, leader_at_event := { leo := 3, hw := 3 },
    read_records := noReads, ev := .updateHomeOffset 5 }

/-- Iteration environment whose event is the leader offset listener firing,
with leader leo 5. -/
def envOffsetChange : StepEnv :=
  { leader_at_update := { leo := 5, hw := 5 }, leader_at_event := { leo := 5, hw := 5 },
    read_records := readOk, ev := .offsetChange }

/-- Metric block of a process that already learned `home_leo = 2` on an
earlier connection. -/
def reconnectMetrics : MirrorControllerMetrics :=
  { initialMetrics with home_leo := 2 }

/-- Metric block with `home_leo = 5`. -/
def metricsAt5 : MirrorControllerMetrics :=
  { initialMetrics with home_leo := 5 }

/-- Concrete connect function: attempt 0 fails, later attempts succeed. -/
def connect0 : String → Nat → Except String FluvioSocket :=
  fun _ attempt => if attempt = 0 then .error "connection refused" else .ok { sid := 7 }

/-- Concrete `RemotePartitionConfig`. -/
def rc0 : RemotePartitionConfig :=
  { home_cluster := "home-a", home_spu_endpoint := "home-host:9010", home_spu_id := 5 }

/-- Iteration environment where the leader's leo (2) equals the stored
`home_leo` of `reconnectMetrics`, and the offset listener fires. -/
def envCaughtUp : StepEnv :=
  { leader_at_update := { leo := 2, hw := 2 }, leader_at_event := { leo := 2, hw := 2 },
    read_records := noReads, ev := .offsetChange }

/-- Iteration environment whose event is the inbound stream ending. -/
def envEndOfStream : StepEnv :=
  { leader_at_update := { leo := 2, hw := 2 }, leader_at_event := { leo := 2, hw := 2 },
    read_records := noReads, ev := .endOfStream }

/-- Iteration environment whose event is a frame decode error. -/
def envDecodeError : StepEnv :=
  { leader_at_update := { leo := 2, hw := 2 }, leader_at_event := { leo := 2, hw := 2 },
    read_records := noReads, ev := .decodeError }

/-- The update-home phase never changes the metric block: on success the
carried-out state differs from the input at most in the
`home_updated_needed` flag. -/
theorem sync_update_phase_ok_metrics (cfg : SyncConfig) (env : StepEnv) (s : SyncState)
    (out : List OutAction) (s1 : SyncState)
    (h : sync_update_phase cfg env s = .ok (out, s1)) :
    s1.metrics = s.metrics := by
  unfold sync_update_phase at h
  split_ifs at h
  · cases hu : update_home env.leader_at_update env.read_records cfg.max_bytes cfg.iso
        (get_home_leo s.metrics) with
    | error e =>
      rw [hu] at h
      simp at h
    | ok val =>
      rw [hu] at h
      simp only [Except.ok.injEq, Prod.mk.injEq] at h
      obtain ⟨-, h2⟩ := h
      subst h2
      rfl
  · simp only [Except.ok.injEq, Prod.mk.injEq] at h
    obtain ⟨-, h2⟩ := h
    subst h2
    rfl

/-- The update-home phase is skipped (no write, state unchanged) when the
flag is clear or `home_leo` is still uninitialized. -/
theorem sync_update_phase_skip (cfg : SyncConfig) (env : StepEnv) (s : SyncState)
    (h : s.home_updated_needed = false ∨ s.metrics.home_leo < 0) :
    sync_update_phase cfg env s = .ok ([], s) := by
  unfold sync_update_phase
  split_ifs with hc
  · exfalso
    rcases h with h | h
    · rw [h] at hc
      exact absurd hc.1 (by simp)
    · have := hc.2
      simp only [get_home_leo] at this
      omega
  · rfl

/-- When the leader's leo equals the stored `home_leo`, the update-home phase
writes nothing. -/
theorem sync_update_phase_caught_up (cfg : SyncConfig) (env : StepEnv) (s : SyncState)
    (h : env.leader_at_update.leo = s.metrics.home_leo) :
    ∃ s1, sync_update_phase cfg env s = .ok ([], s1) ∧ s1.metrics = s.metrics := by
  unfold sync_update_phase
  split_ifs with hc
  · have hg : generate_home_sync env.leader_at_update env.read_records cfg.max_bytes cfg.iso
        (get_home_leo s.metrics) = .ok none := by
      unfold generate_home_sync
      rw [if_pos (by simpa [get_home_leo] using h)]
    have hu : update_home env.leader_at_update env.read_records cfg.max_bytes cfg.iso
        (get_home_leo s.metrics) = .ok [] := by
      unfold update_home
      rw [hg]
    refine ⟨{ s with home_updated_needed := false }, ?_, rfl⟩
    rw [hu]
  · exact ⟨s, rfl, rfl⟩

/-- C1: `update_from_home` stores `req.leo` unconditionally when the stored
`home_leo` is negative; then comparing `req.leo` with the leader's leo it
returns `Err` on greater, stores `req.leo` and returns `Ok(true)` on less,
and returns `Ok(false)` on equal. -/
theorem update_from_home_spec (m : MirrorControllerMetrics) (leader_leo new_home_leo : Int) :
    (m.home_leo < 0 →
      (update_from_home m leader_leo new_home_leo).1.home_leo = new_home_leo) ∧
    (leader_leo < new_home_leo →
      ∃ e, (update_from_home m leader_leo new_home_leo).2 = .error e) ∧
    (new_home_leo < leader_leo →
      (update_from_home m leader_leo new_home_leo).1.home_leo = new_home_leo ∧
      (update_from_home m leader_leo new_home_leo).2 = .ok true) ∧
    (new_home_leo = leader_leo →
      (update_from_home m leader_leo new_home_leo).2 = .ok false) := by
  unfold update_from_home get_home_leo update_home_leo
  refine ⟨?_, ?_, ?_, ?_⟩ <;> intro h <;> simp only [] <;> split_ifs <;>
    simp_all <;> omega

/-- Witness for C1 at a concrete input: leader leo 5, uninitialized home,
request leo 3. -/
theorem update_from_home_spec_witness :
    (update_from_home initialMetrics 5 3).1.home_leo = 3 ∧
    (update_from_home initialMetrics 5 3).2 = .ok true :=
  (update_from_home_spec initialMetrics 5 3).2.2.1 (by decide)

/-- C2 counterexample: from the initial state (`home_leo = -1`, reachable at
process start) one `update_from_home` call with leader leo 3 and request
leo 5 leaves `home_leo = 5`, which is non-negative and strictly greater than
the leader's leo 3 — refuting the claim that no operation ever leaves
`home_leo ≥ 0` greater than `leader_leo`.  The run goes through the sync loop
processing the corresponding `UpdateHomeOffsetRequest`. -/
theorem home_leo_invariant_counterexample :
    0 ≤ (sync_mirror_loop cfg0 home0 "replica-0" initialMetrics
          [envBootstrapAhead]).1.metrics.home_leo ∧
    (3 : Int) < (sync_mirror_loop cfg0 home0 "replica-0" initialMetrics
          [envBootstrapAhead]).1.metrics.home_leo ∧
    envBootstrapAhead.leader_at_event.leo = 3 := by
  decide

/-- C2 amended: every `Ok`-returning `update_from_home` call preserves the
invariant `home_leo ≤ leader_leo` (given the stored `home_leo` was
uninitialized or already satisfied it); conversely, whenever a call leaves
`home_leo` above `leader_leo` from such a state, the call returned `Err`
(the bootstrap-store-then-fail path). -/
theorem update_from_home_preserves_invariant (m : MirrorControllerMetrics)
    (leader_leo new_home_leo : Int) :
    ((update_from_home m leader_leo new_home_leo).2.isOk = true →
      (m.home_leo < 0 ∨ m.home_leo ≤ leader_leo) →
      (update_from_home m leader_leo new_home_leo).1.home_leo ≤ leader_leo) ∧
    (leader_leo < (update_from_home m leader_leo new_home_leo).1.home_leo →
      (m.home_leo < 0 ∨ m.home_leo ≤ leader_leo) →
      (update_from_home m leader_leo new_home_leo).2.isOk = false) := by
  unfold update_from_home get_home_leo update_home_leo
  constructor <;> intro h1 h2 <;> revert h1 <;> split_ifs <;>
    simp_all [Except.isOk, Except.toBool] <;> omega

/-- Witness for C2's amended theorem: leader leo 5, uninitialized home,
request leo 2 — the call returns `Ok` and leaves `home_leo = 2 ≤ 5`. -/
theorem update_from_home_preserves_invariant_witness :
    (update_from_home initialMetrics 5 2).1.home_leo ≤ 5 :=
  (update_from_home_preserves_invariant initialMetrics 5 2).1 (by decide) (by decide)

/-- C5 counterexample: with `home_leo = 5` stored and leader leo 10, an
`UpdateHomeOffsetRequest` carrying leo 3 makes `update_from_home` store 3 and
return `Ok(true)` — `home_leo` strictly decreases from 5 to 3, refuting
monotonicity. -/
theorem home_leo_monotone_counterexample :
    metricsAt5.home_leo = 5 ∧
    (update_from_home metricsAt5 10 3).1.home_leo = 3 ∧
    (update_from_home metricsAt5 10 3).2 = .ok true := by
  decide

/-- C5 amended: `update_from_home` (the only mutator of `home_leo`) either
keeps `home_leo` or sets it to the request's leo, so `home_leo` is
non-decreasing provided each received `UpdateHomeOffsetRequest` carries a leo
at least the current `home_leo`; a request below the current `home_leo` (and
below the leader's leo) strictly lowers it. -/
theorem update_from_home_monotone (m : MirrorControllerMetrics)
    (leader_leo new_home_leo : Int) (h : m.home_leo ≤ new_home_leo) :
    m.home_leo ≤ (update_from_home m leader_leo new_home_leo).1.home_leo := by
  unfold update_from_home get_home_leo update_home_leo
  split_ifs <;> simp_all

/-- Witness for C5's amended theorem: `home_leo = 5`, request leo 7 ≥ 5. -/
theorem update_from_home_monotone_witness :
    metricsAt5.home_leo ≤ (update_from_home metricsAt5 10 7).1.home_leo :=
  update_from_home_monotone metricsAt5 10 7 (by decide)

/-- C8: on the bootstrap error path — stored `home_leo` negative and request
leo above the leader's leo — `update_from_home` first stores the request leo
(leaving `home_leo` strictly above `leader_leo`) and then returns `Err`;
the mutated metric block is exactly what a subsequent reconnect's
`sync_mirror_loop` starts from. -/
theorem bootstrap_error_mutates (m : MirrorControllerMetrics)
    (leader_leo new_home_leo : Int) (hneg : m.home_leo < 0)
    (hgt : leader_leo < new_home_leo) :
    (update_from_home m leader_leo new_home_leo).1.home_leo = new_home_leo ∧
    leader_leo < (update_from_home m leader_leo new_home_leo).1.home_leo ∧
    (∃ e, (update_from_home m leader_leo new_home_leo).2 = .error e) ∧
    (∀ cfg home rep,
      (sync_mirror_loop cfg home rep (update_from_home m leader_leo new_home_leo).1 []).1.metrics
        = (update_from_home m leader_leo new_home_leo).1) := by
  refine ⟨?_, ?_, ?_, ?_⟩
  · unfold update_from_home get_home_leo update_home_leo
    split_ifs <;> simp_all
  · unfold update_from_home get_home_leo update_home_leo
    split_ifs <;> simp_all
  · unfold update_from_home get_home_leo update_home_leo
    split_ifs <;> simp_all
  · intro cfg home rep
    rfl

/-- Witness for C8 at the concrete input of the C2 counterexample:
uninitialized home, leader leo 3, request leo 5. -/
theorem bootstrap_error_mutates_witness :
    (update_from_home initialMetrics 3 5).1.home_leo = 5 ∧
    (3 : Int) < (update_from_home initialMetrics 3 5).1.home_leo ∧
    (∃ e, (update_from_home initialMetrics 3 5).2 = .error e) ∧
    (∀ cfg home rep,
      (sync_mirror_loop cfg home rep (update_from_home initialMetrics 3 5).1 []).1.metrics
        = (update_from_home initialMetrics 3 5).1) :=
  bootstrap_error_mutates initialMetrics 3 5 (by decide) (by decide)

/-- C4: `generate_home_sync(home_leo)` returns `Ok(None)` when the leader's
leo equals `home_leo`; returns `Err` when the leader's leo is below
`home_leo`; otherwise it issues the bounded read
`read_records home_leo max_bytes iso` and, on success, returns `Some`
request carrying the leader's leo/hw snapshot and the returned file slice
(or empty records), while on read failure it returns `Err`. -/
theorem generate_home_sync_spec (leader_offset : OffsetInfo)
    (read_records : Int → Nat → Isolation → Except String ReadSlice)
    (max_bytes : Nat) (iso : Isolation) (home_leo : Int) :
    (leader_offset.leo = home_leo →
      generate_home_sync leader_offset read_records max_bytes iso home_leo = .ok none) ∧
    (leader_offset.leo < home_leo →
      ∃ e, generate_home_sync leader_offset read_records max_bytes iso home_leo = .error e) ∧
    (home_leo < leader_offset.leo →
      (∀ slice, read_records home_leo max_bytes iso = .ok slice →
        generate_home_sync leader_offset read_records max_bytes iso home_leo =
          .ok (some { leo := leader_offset.leo, hw := leader_offset.hw,
                      records := slice.file_slice.getD [] })) ∧
      (∀ e, read_records home_leo max_bytes iso = .error e →
        ∃ msg, generate_home_sync leader_offset read_records max_bytes iso home_leo =
          .error msg)) := by
  unfold generate_home_sync
  refine ⟨?_, ?_, ?_⟩
  · intro h
    simp [h]
  · intro h
    split_ifs <;> simp_all <;> omega
  · intro h
    constructor
    · intro slice hs
      split_ifs <;> simp_all
      cases hfs : slice.file_slice <;> simp [hfs]
    · intro e he
      split_ifs <;> simp_all <;> omega

/-- Witness for C4: leader at leo 5, `home_leo = 2`, read succeeding with a
three-byte slice. -/
theorem generate_home_sync_spec_witness :
    generate_home_sync { leo := 5, hw := 5 } readOk 1024 .readUncommitted 2 =
      .ok (some { leo := 5, hw := 5, records := [1, 2, 3] }) :=
  ((generate_home_sync_spec { leo := 5, hw := 5 } readOk 1024 .readUncommitted 2).2.2
      (by decide)).1
    { end_offsets := { leo := 5, hw := 5 }, file_slice := some [1, 2, 3] } rfl

/-- C9: `create_socket_to_home` has no failure return — whenever the connect
attempt at index `a + k` is the first to succeed (the `k` attempts before it
fail), the loop returns that socket paired with the TLS flag `false`, having
incremented `connect_count` once per attempt (k + 1 times) and run the
backoff (incrementing `connect_failure`) once per failed attempt, with
`home_leo` and `loop_count` untouched. -/
theorem create_socket_to_home_spec (remote_config : RemotePartitionConfig)
    (connect : String → Nat → Except String FluvioSocket)
    (sock : FluvioSocket) :
    ∀ (k : Nat) (m : MirrorControllerMetrics) (a fuel : Nat),
    (∀ j, j < k → ∃ e, connect remote_config.home_spu_endpoint (a + j) = .error e) →
    connect remote_config.home_spu_endpoint (a + k) = .ok sock →
    k < fuel →
    create_socket_to_home remote_config connect m a fuel =
      (some (sock, false),
       { loop_count := m.loop_count, connect_count := m.connect_count + (k + 1),
         connect_failure := m.connect_failure + k, home_leo := m.home_leo }) := by
  intro k
  induction k with
  | zero =>
    intro m a fuel _ hok hfuel
    match fuel, hfuel with
    | f + 1, _ =>
      simp only [create_socket_to_home]
      rw [show a + 0 = a from rfl] at hok
      rw [hok]
      simp [increase_conn_count]
  | succ k ih =>
    intro m a fuel hfail hok hfuel
    match fuel, hfuel with
    | f + 1, hfuel =>
      obtain ⟨e, he⟩ := hfail 0 (Nat.succ_pos k)
      simp only [create_socket_to_home]
      rw [show a + 0 = a from rfl] at he
      rw [he]
      rw [ih (backoff_and_wait (increase_conn_count m)) (a + 1) f
            (fun j hj => by
              obtain ⟨e2, he2⟩ := hfail (j + 1) (Nat.succ_lt_succ hj)
              exact ⟨e2, by rw [show a + 1 + j = a + (j + 1) from by omega]; exact he2⟩)
            (by rw [show a + 1 + k = a + (k + 1) from by omega]; exact hok)
            (Nat.lt_of_succ_lt_succ hfuel)]
      simp only [backoff_and_wait, increase_conn_failure, increase_conn_count]
      congr 2 <;> omega

/-- Witness for C9: endpoint from `rc0`, one refused attempt then success,
starting from the initial metric block with fuel 3. -/
theorem create_socket_to_home_spec_witness :
    create_socket_to_home rc0 connect0 initialMetrics 0 3 =
      (some ({ sid := 7 }, false),
       { loop_count := 0, connect_count := 2, connect_failure := 1, home_leo := -1 }) :=
  create_socket_to_home_spec rc0 connect0 { sid := 7 } 1 initialMetrics 0 3
    (by
      intro j hj
      have hj0 : j = 0 := by omega
      subst hj0
      exact ⟨"connection refused", rfl⟩)
    rfl (by decide)

/-- Reduction of `sync_step` once the update-home phase's result is known. -/
theorem sync_step_ok (cfg : SyncConfig) (env : StepEnv) (s : SyncState) (out : List OutAction)
    (s1 : SyncState) (hup : sync_update_phase cfg env s = .ok (out, s1)) :
    sync_step cfg env s =
      match env.ev with
      | .offsetChange => .next ⟨increase_conn_count s1.metrics, true⟩ out
      | .updateHomeOffset leo =>
        match update_from_home s1.metrics env.leader_at_event.leo leo with
        | (m, .ok b) => .next ⟨increase_conn_count m, b⟩ out
        | (m, .error e) => .exit ⟨m, s1.home_updated_needed⟩ out (.error e)
      | .endOfStream => .exit ⟨backoff_and_wait s1.metrics, s1.home_updated_needed⟩
          (out ++ [.backoffWait]) (.ok ())
      | .decodeError => .exit s1 out (.error "frame decode error") := by
  unfold sync_step
  rw [hup]

/-- While `home_leo` is uninitialized, a sync-loop run whose events contain
no inbound `UpdateHomeOffsetRequest` emits no `FilePartitionSyncRequest`. -/
theorem sync_run_no_sync_of_uninit (cfg : SyncConfig) (envs : List StepEnv) :
    ∀ s : SyncState, s.metrics.home_leo < 0 →
    (∀ e ∈ envs, e.ev.isUpdateHomeOffset = false) →
    ∀ a ∈ (sync_run cfg s envs).2.1, a.isPartitionSync = false := by
  induction envs with
  | nil =>
    intro s _ _ a ha
    simp [sync_run] at ha
  | cons env rest ih =>
    intro s hneg hno
    have hup := sync_update_phase_skip cfg env s (Or.inr hneg)
    cases henv : env.ev with
    | updateHomeOffset leo =>
      have hfalse := hno env (List.mem_cons_self env rest)
      rw [henv] at hfalse
      simp [HomeEvent.isUpdateHomeOffset] at hfalse
    | offsetChange =>
      have hstep : sync_step cfg env s =
          .next ⟨increase_conn_count s.metrics, true⟩ [] := by
        unfold sync_step
        rw [hup, henv]
      simp only [sync_run, hstep, List.nil_append]
      exact ih _ (by simpa [increase_conn_count] using hneg)
        (fun e he => hno e (List.mem_cons_of_mem env he))
    | endOfStream =>
      have hstep : sync_step cfg env s = .exit { s with metrics := backoff_and_wait s.metrics }
          ([] ++ [.backoffWait]) (.ok ()) := by
        unfold sync_step
        rw [hup, henv]
      simp [sync_run, hstep, OutAction.isPartitionSync]
    | decodeError =>
      have hstep : sync_step cfg env s = .exit s [] (.error "frame decode error") := by
        unfold sync_step
        rw [hup, henv]
      simp [sync_run, hstep]

/-- C3 counterexample: a connection entered with `home_leo = 2` already known
from an earlier connection, whose only events are two leader-offset changes
(no inbound `UpdateHomeOffsetRequest`), emits a `FilePartitionSyncRequest` —
refuting the claim that records are never sent before an inbound update on
the same connection. -/
theorem sync_records_before_update_counterexample :
    ((sync_mirror_loop cfg0 home0 "replica-0" reconnectMetrics
        [envOffsetChange, envOffsetChange]).2.1.any OutAction.isPartitionSync = true) ∧
    ([envOffsetChange, envOffsetChange].all (fun e => !e.ev.isUpdateHomeOffset) = true) := by
  decide

/-- C3 amended: on every connection the first outbound message is a
`StartMirrorRequest` carrying `home.remote_id` and the leader's replica id;
and on a connection entered with `home_leo` still uninitialized (< 0, e.g.
the first connection of the process), no `FilePartitionSyncRequest` is sent
before an inbound `UpdateHomeOffsetRequest` arrives.  (On reconnects with
`home_leo ≥ 0`, a leader-offset change alone can trigger records.) -/
theorem sync_first_message_and_bootstrap_order (cfg : SyncConfig) (home : Home)
    (leader_replica : String) (m : MirrorControllerMetrics) (envs : List StepEnv) :
    (sync_mirror_loop cfg home leader_replica m envs).2.1.head? =
      some (.sendStartMirror home.remote_id leader_replica) ∧
    (m.home_leo < 0 →
      (∀ e ∈ envs, e.ev.isUpdateHomeOffset = false) →
      ∀ a ∈ (sync_mirror_loop cfg home leader_replica m envs).2.1,
        a.isPartitionSync = false) := by
  constructor
  · rfl
  · intro hinit hnoupd a ha
    simp only [sync_mirror_loop, List.mem_cons] at ha
    rcases ha with rfl | ha
    · rfl
    · exact sync_run_no_sync_of_uninit cfg envs _ hinit hnoupd a ha

/-- Witness for C3's amended theorem: first connection of a process, a single
leader-offset-change event; the head of the outbound trace is the
`StartMirrorRequest` and (discharging the bootstrap hypotheses at this
input) it is not a record send. -/
theorem sync_first_message_and_bootstrap_order_witness :
    (sync_mirror_loop cfg0 home0 "replica-0" initialMetrics [envOffsetChange]).2.1.head? =
      some (.sendStartMirror "edge1" "replica-0") ∧
    OutAction.isPartitionSync (.sendStartMirror "edge1" "replica-0") = false :=
  ⟨(sync_first_message_and_bootstrap_order cfg0 home0 "replica-0" initialMetrics
      [envOffsetChange]).1,
   (sync_first_message_and_bootstrap_order cfg0 home0 "replica-0" initialMetrics
      [envOffsetChange]).2 (by decide)
      (by
        intro e he
        simp only [List.mem_singleton] at he
        subst he
        rfl)
      (.sendStartMirror "edge1" "replica-0") (by decide)⟩

/-- C6: when the leader's leo equals the stored `home_leo`, the iteration
emits no `FilePartitionSyncRequest` (the window ends with whatever event the
iteration consumes): `update_from_home` returns `Ok(false)` on equality so
the flag stays clear, and `generate_home_sync` returns `Ok(None)` so
`update_home` writes nothing even when invoked. -/
theorem caught_up_no_sync (cfg : SyncConfig) (env : StepEnv) (s : SyncState)
    (h : env.leader_at_update.leo = s.metrics.home_leo) :
    (∀ (mm : MirrorControllerMetrics) (l : Int), (update_from_home mm l l).2 = .ok false) ∧
    generate_home_sync env.leader_at_update env.read_records cfg.max_bytes cfg.iso
      s.metrics.home_leo = .ok none ∧
    (∀ a ∈ (sync_step cfg env s).out, a.isPartitionSync = false) := by
  refine ⟨?_, ?_, ?_⟩
  · intro mm l
    unfold update_from_home get_home_leo update_home_leo
    simp
  · unfold generate_home_sync
    rw [if_pos h]
  · obtain ⟨s1, hup, -⟩ := sync_update_phase_caught_up cfg env s h
    rw [sync_step_ok cfg env s [] s1 hup]
    cases henv : env.ev with
    | offsetChange => simp [StepOutcome.out, OutAction.isPartitionSync]
    | updateHomeOffset leo =>
      split <;>
        first
          | (split <;> simp [StepOutcome.out, OutAction.isPartitionSync])
          | simp [StepOutcome.out, OutAction.isPartitionSync]
    | endOfStream => simp [StepOutcome.out, OutAction.isPartitionSync]
    | decodeError => simp [StepOutcome.out, OutAction.isPartitionSync]

/-- Witness for C6: leader leo 2, stored `home_leo` 2, flag set. -/
theorem caught_up_no_sync_witness :
    generate_home_sync envCaughtUp.leader_at_update envCaughtUp.read_records cfg0.max_bytes
      cfg0.iso reconnectMetrics.home_leo = .ok none :=
  (caught_up_no_sync cfg0 envCaughtUp
      { metrics := reconnectMetrics, home_updated_needed := true } (by decide)).2.1

/-- C7: with the update flag clear, the inbound-frame handling distinguishes
end of stream from a decode error — end of stream runs `backoff_and_wait`
and leaves the loop with `Ok`, while a decode error makes `sync_mirror_loop`
return `Err`. -/
theorem stream_end_vs_decode_error (cfg : SyncConfig) (env : StepEnv) (s : SyncState)
    (hflag : s.home_updated_needed = false) :
    (env.ev = .endOfStream →
      sync_step cfg env s =
        .exit { s with metrics := backoff_and_wait s.metrics } [.backoffWait] (.ok ())) ∧
    (env.ev = .decodeError →
      ∃ e, sync_step cfg env s = .exit s [] (.error e)) := by
  have hup := sync_update_phase_skip cfg env s (Or.inl hflag)
  constructor
  · intro hev
    rw [sync_step_ok cfg env s [] s hup, hev]
    rfl
  · intro hev
    refine ⟨"frame decode error", ?_⟩
    rw [sync_step_ok cfg env s [] s hup, hev]

/-- Witness for C7 at a concrete end-of-stream event. -/
theorem stream_end_vs_decode_error_witness :
    sync_step cfg0 envEndOfStream { metrics := reconnectMetrics, home_updated_needed := false } =
      .exit { metrics := backoff_and_wait reconnectMetrics, home_updated_needed := false }
        [.backoffWait] (.ok ()) :=
  (stream_end_vs_decode_error cfg0 envEndOfStream
      { metrics := reconnectMetrics, home_updated_needed := false } rfl).1 rfl

/-- C10: `home_leo` is written only while processing an inbound
`UpdateHomeOffsetRequest` (i.e. by `update_from_home`): an iteration that
changes `home_leo` had an `updateHomeOffset` event, and
`create_socket_to_home`, `backoff_and_wait`, `increase_loop_count` and
`increase_conn_count` (hence the supervisor loop and record sends) all leave
`home_leo` untouched. -/
theorem home_leo_only_from_update (cfg : SyncConfig) (env : StepEnv) (s : SyncState) :
    ((sync_step cfg env s).state.metrics.home_leo ≠ s.metrics.home_leo →
      ∃ leo, env.ev = .updateHomeOffset leo) ∧
    (∀ rc connect m a fuel,
      (create_socket_to_home rc connect m a fuel).2.home_leo = m.home_leo) ∧
    (∀ m, (backoff_and_wait m).home_leo = m.home_leo) ∧
    (∀ m, (increase_loop_count m).home_leo = m.home_leo) ∧
    (∀ m, (increase_conn_count m).home_leo = m.home_leo) := by
  refine ⟨?_, ?_, ?_, ?_, ?_⟩
  · intro hne
    unfold sync_step at hne
    cases hup : sync_update_phase cfg env s with
    | error e =>
      rw [hup] at hne
      simp [StepOutcome.state] at hne
    | ok p =>
      obtain ⟨out, s1⟩ := p
      have hm : s1.metrics = s.metrics := sync_update_phase_ok_metrics cfg env s out s1 hup
      rw [hup] at hne
      cases henv : env.ev with
      | updateHomeOffset leo => exact ⟨leo, rfl⟩
      | offsetChange =>
        rw [henv] at hne
        simp [StepOutcome.state, increase_conn_count, hm] at hne
      | endOfStream =>
        rw [henv] at hne
        simp [StepOutcome.state, backoff_and_wait, increase_conn_failure, hm] at hne
      | decodeError =>
        rw [henv] at hne
        simp [StepOutcome.state, hm] at hne
  · intro rc connect m a fuel
    induction fuel generalizing m a with
    | zero => rfl
    | succ f ih =>
      simp only [create_socket_to_home]
      cases hc : connect rc.home_spu_endpoint a with
      | ok sock => simp [increase_conn_count]
      | error e =>
        exact (ih (backoff_and_wait (increase_conn_count m)) (a + 1)).trans
          (by simp [backoff_and_wait, increase_conn_failure, increase_conn_count])
  · intro m
    rfl
  · intro m
    rfl
  · intro m
    rfl

/-- Witness for C10: an iteration that changes `home_leo` (bootstrap from -1
to 5) indeed had an `updateHomeOffset` event. -/
theorem home_leo_only_from_update_witness :
    ∃ leo, envBootstrapAhead.ev = HomeEvent.updateHomeOffset leo :=
  (home_leo_only_from_update cfg0 envBootstrapAhead
      { metrics := initialMetrics, home_updated_needed := false }).1 (by decide)

end Mirror
